import Mathlib

/-
Verification of the proximity-lock service: a shallow embedding of
`bluetooth_monitor/core.py`, `bluetooth_monitor/bluetooth_monitor.py` and
`proximity_lock_service.py`, together with theorems settling the frozen
claims about the scan engine, the proximity estimator, the retry
orchestrator and the lock decision loop.
-/

/-! ## Python string model

Python strings are modelled as lists of characters.  `str.upper` and
`str.lower` act per character (the repository only ever handles ASCII MAC
addresses and device names), and the Python substring test `a in b` is the
contiguous-sublist relation. -/

abbrev PyStr := List Char

/-- Python `str.upper` (per-character, ASCII). -/
def pyUpper (s : PyStr) : PyStr := s.map Char.toUpper

/-- Python `str.lower` (per-character, ASCII). -/
def pyLower (s : PyStr) : PyStr := s.map Char.toLower

/-! ## BluetoothDetector: target matching (core.py lines 45, 82-94) -/

/-- `BluetoothDetector.__init__` (core.py line 45): the stored target list is
`[td.upper() for td in target_devices]`. -/
def init_target_devices (targets : List PyStr) : List PyStr := targets.map pyUpper

/-- `BluetoothDetector.is_target_device` (core.py lines 82-94):
`any(target in mac_address.upper() or target.lower() in name.lower()
for target in self.target_devices)`.  Note both tests are Python `in`,
i.e. substring tests. -/
def is_target_device (target_devices : List PyStr) (mac_address name : PyStr) : Bool :=
  target_devices.any fun target =>
    decide (target <:+: pyUpper mac_address) || decide (pyLower target <:+: pyLower name)

/-! ## BluetoothDetector: scan engine (core.py lines 96-167) -/

/-- One advertisement event as seen by `detection_callback`: the fields of
the `(mac, name, rssi, ad_data)` tuple that the scan logic inspects. -/
structure Observation where
  mac : PyStr
  name : PyStr
  rssi : Int
deriving DecidableEq

/-- The mutable state closed over by `detection_callback`
(core.py lines 114-116): the accumulated `devices_found` list, the
`found_target_macs` set, and whether `stop_scan_event` has been set. -/
structure ScanState where
  devices_found : List Observation
  found_target_macs : List PyStr
  stopped : Bool
deriving DecidableEq

/-- Python `set.add` on a set represented as a duplicate-free list. -/
def setInsert (s : List PyStr) (x : PyStr) : List PyStr :=
  if x ∈ s then s else s ++ [x]

/-- `detection_callback` (core.py lines 118-143): append the observation to
`devices_found`; when `target_only` and targets are configured, add a
matching observation's MAC to `found_target_macs` and set the stop event
once `len(found_target_macs) == len(self.target_devices)`; when
`target_only` with no targets, stop on the first observation. -/
def detection_callback (target_devices : List PyStr) (target_only : Bool)
    (st : ScanState) (o : Observation) : ScanState :=
  let st1 : ScanState := { st with devices_found := st.devices_found ++ [o] }
  if target_only && !target_devices.isEmpty then
    if is_target_device target_devices o.mac o.name then
      let macs := setInsert st1.found_target_macs o.mac
      if macs.length == target_devices.length || target_devices.isEmpty then
        { st1 with found_target_macs := macs, stopped := true }
      else
        { st1 with found_target_macs := macs }
    else st1
  else if target_only && target_devices.isEmpty then
    { st1 with stopped := true }
  else st1

/-- The event-delivery loop of one scan (core.py lines 148-158): observation
events are delivered in order until the stop event is set (the
`asyncio.wait_for(stop_scan_event.wait(), ...)` returns and the scanner is
stopped) or the input stream ends (the `scan_duration` deadline). -/
def scan_events_loop (target_devices : List PyStr) (target_only : Bool) :
    List Observation → ScanState → ScanState
  | [], st => st
  | o :: rest, st =>
    let st1 := detection_callback target_devices target_only st o
    if st1.stopped then st1 else scan_events_loop target_devices target_only rest st1

/-- Fresh per-scan state (core.py lines 114-116). -/
def initial_scan_state : ScanState := ⟨[], [], false⟩

/-- One whole scan session over the stream of observation events arriving
before the deadline. -/
def run_scan (target_devices : List PyStr) (target_only : Bool)
    (events : List Observation) : ScanState :=
  scan_events_loop target_devices target_only events initial_scan_state

/-! ## Proximity estimator (core.py lines 217-257)

The Python float arithmetic is idealised as real arithmetic.  Python's
`round(x, 2)` is round-half-even at two decimals; on every value reachable
here (`100 * 10 ^ q` with `q` rational is never a half-integer) it agrees
with `round`, which `round2` uses. -/

/-- `round(x, 2)`: round to two decimal places. -/
noncomputable def round2 (x : ℝ) : ℝ := ((round (x * 100) : ℤ) : ℝ) / 100

/-- The effective calibrated power: Python `tx_power = tx_power or -59`
(core.py line 234).  `or` takes the default when `tx_power` is `None`
*or falsy*, i.e. also when it is exactly `0`. -/
def default_tx_power (tx_power : Option Int) : Int :=
  match tx_power with
  | none => -59
  | some t => if t = 0 then -59 else t

/-- `BluetoothDetector.estimate_distance` (core.py lines 217-236; the
standalone copy in bluetooth_monitor.py lines 171-191 is identical):
`None` for an absent or zero RSSI, otherwise
`round(pow(10, (tx_power - rssi) / (10 * n)), 2)` with `n = 2.0`. -/
noncomputable def estimate_distance (rssi : Option Int) (tx_power : Option Int) : Option ℝ :=
  match rssi with
  | none => none
  | some r =>
    if r = 0 then none
    else
      let n : ℝ := 2
      some (round2 ((10 : ℝ) ^ ((((default_tx_power tx_power : Int) : ℝ) - (r : ℝ)) / (10 * n))))

/-- `BluetoothDetector.classify_proximity` (core.py lines 238-257). -/
noncomputable def classify_proximity (distance : Option ℝ) : String :=
  match distance with
  | none => "Unknown"
  | some d =>
    if d < 0.5 then "Immediate"
    else if d < 2 then "Near"
    else if d < 10 then "Far"
    else "Very Far"

/-! ## Retry orchestrator (proximity_lock_service.py lines 9-49) -/

/-- `FAR_PROXIMITIES` (proximity_lock_service.py line 9). -/
def FAR_PROXIMITIES : List String := ["Far", "Very Far"]

/-- `RETRY_COUNT` (line 11). -/
def RETRY_COUNT : Nat := 3

/-- `RETRY_DELAY` seconds (line 12). -/
def RETRY_DELAY : Nat := 5

/-- `CHECK_INTERVAL` seconds (line 10). -/
def CHECK_INTERVAL : Nat := 30

/-- `scan_proximity` (lines 19-26): return the proximity of the first
device in the scan results whose `mac` equals `target_mac`, else `None`.
A result entry is modelled as its `(mac, proximity)` pair. -/
def scan_proximity (target_mac : String) (results : List (String × String)) : Option String :=
  match results.find? (fun device => device.1 == target_mac) with
  | some device => some device.2
  | none => none

/-- An observable step of `scan_proximity_with_retry`: one scan attempt
(with its index and its `scan_proximity` result), or one
`asyncio.sleep(RETRY_DELAY)`. -/
inductive RetryEvent
  | attempt (index : Nat) (result : Option String)
  | sleep (seconds : Nat)
deriving DecidableEq

/-- The outcome of `scan_proximity_with_retry`: its return value, the
ordered trace of attempts and sleeps it performed, and whether the last
attempt executed found the target (`proximity is not None`). -/
structure RetryResult where
  proximity : String
  trace : List RetryEvent
  matched : Bool
deriving DecidableEq

/-- The fast-accept test (line 33):
`proximity is not None and proximity not in FAR_PROXIMITIES`. -/
def close_match (proximity : Option String) : Bool :=
  match proximity with
  | none => false
  | some p => !(FAR_PROXIMITIES.contains p)

/-- The body of the `for attempt in range(RETRY_COUNT)` loop of
`scan_proximity_with_retry` (lines 28-49), by recursion on the number of
remaining attempts.  `scan idx` is the `scan_proximity` result of the
attempt with index `idx`.  A sleep is performed only when
`attempt < RETRY_COUNT - 1`, i.e. when further attempts remain; after the
loop the function returns `"Very Far"`. -/
def retry_go (scan : Nat → Option String) : Nat → Nat → Option String → RetryResult
  | 0, _, last => ⟨"Very Far", [], last.isSome⟩
  | remaining + 1, idx, _ =>
    let proximity := scan idx
    if close_match proximity then
      ⟨proximity.getD "Very Far", [RetryEvent.attempt idx proximity], true⟩
    else if remaining > 0 then
      let rest := retry_go scan remaining (idx + 1) proximity
      ⟨rest.proximity, RetryEvent.attempt idx proximity :: RetryEvent.sleep RETRY_DELAY :: rest.trace,
        rest.matched⟩
    else
      let rest := retry_go scan remaining (idx + 1) proximity
      ⟨rest.proximity, RetryEvent.attempt idx proximity :: rest.trace, rest.matched⟩

/-- `scan_proximity_with_retry` (lines 28-49), parametrised by the
per-attempt `scan_proximity` outcome. -/
def scan_proximity_with_retry (scan : Nat → Option String) : RetryResult :=
  retry_go scan RETRY_COUNT 0 none

/-! ## Lock decision loop (proximity_lock_service.py lines 51-69) -/

/-- The exception kinds that can surface inside one cycle of `run_service`:
the three caught by its `except` clause, and `NotImplementedError`, which
`scan_ble_devices` raises when the radio library is unavailable
(core.py line 111) and which the `except` clause does not name. -/
inductive PyError
  | statusCheckError
  | lockFailedError
  | fileNotFoundError
  | notImplementedError
deriving DecidableEq

/-- Membership in the `except (StatusCheckError, LockFailedError,
FileNotFoundError)` tuple (line 66). -/
def caught_by_handler (e : PyError) : Bool :=
  match e with
  | .statusCheckError => true
  | .lockFailedError => true
  | .fileNotFoundError => true
  | .notImplementedError => false

/-- Collaborator invocation counts observed during one cycle. -/
structure CycleTrace where
  resolveCalls : Nat
  lockCalls : Nat
deriving DecidableEq

/-- How one cycle ends: proceed to the next cycle after sleeping
`CHECK_INTERVAL`, or crash out of the `while` loop with an uncaught
exception. -/
inductive CycleOutcome
  | next (sleepSeconds : Nat)
  | crashed (e : PyError)
deriving DecidableEq

/-- The `try` body of one cycle of `run_service` (lines 56-64): query
`locker.is_locked()`; when unlocked, resolve proximity and, when the
resolved class is in `FAR_PROXIMITIES`, invoke `locker.lock()`.  Each
collaborator either returns a value or raises. -/
def cycle_body (locked : Except PyError Bool) (resolve : Except PyError String)
    (lockRes : Except PyError Unit) : Except PyError Unit × CycleTrace :=
  match locked with
  | .error e => (.error e, ⟨0, 0⟩)
  | .ok true => (.ok (), ⟨0, 0⟩)
  | .ok false =>
    match resolve with
    | .error e => (.error e, ⟨1, 0⟩)
    | .ok proximity =>
      if FAR_PROXIMITIES.contains proximity then
        match lockRes with
        | .error e => (.error e, ⟨1, 1⟩)
        | .ok _ => (.ok (), ⟨1, 1⟩)
      else (.ok (), ⟨1, 0⟩)

/-- One full cycle of `run_service` (lines 55-69): the `try` body, the
`except (StatusCheckError, LockFailedError, FileNotFoundError)` clause,
and the unconditional `time.sleep(CHECK_INTERVAL)` that follows a
non-crashing cycle. -/
def run_service_cycle (locked : Except PyError Bool) (resolve : Except PyError String)
    (lockRes : Except PyError Unit) : CycleOutcome × CycleTrace :=
  match cycle_body locked resolve lockRes with
  | (.ok _, t) => (.next CHECK_INTERVAL, t)
  | (.error e, t) =>
    if caught_by_handler e then (.next CHECK_INTERVAL, t) else (.crashed e, t)

/-! ## Helper lemmas -/

/-- `retry_go` with no remaining attempts. -/
theorem retry_go_zero (scan : Nat → Option String) (idx : Nat) (last : Option String) :
    retry_go scan 0 idx last = ⟨"Very Far", [], last.isSome⟩ := rfl

/-- One unrolling of the retry loop. -/
theorem retry_go_succ (scan : Nat → Option String) (remaining idx : Nat) (last : Option String) :
    retry_go scan (remaining + 1) idx last =
      if close_match (scan idx) then
        ⟨(scan idx).getD "Very Far", [RetryEvent.attempt idx (scan idx)], true⟩
      else if remaining > 0 then
        ⟨(retry_go scan remaining (idx + 1) (scan idx)).proximity,
          RetryEvent.attempt idx (scan idx) :: RetryEvent.sleep RETRY_DELAY ::
            (retry_go scan remaining (idx + 1) (scan idx)).trace,
          (retry_go scan remaining (idx + 1) (scan idx)).matched⟩
      else
        ⟨(retry_go scan remaining (idx + 1) (scan idx)).proximity,
          RetryEvent.attempt idx (scan idx) :: (retry_go scan remaining (idx + 1) (scan idx)).trace,
          (retry_go scan remaining (idx + 1) (scan idx)).matched⟩ := rfl

/-- C1: when the target is never matched on any of the `RETRY_COUNT = 3`
attempts, `scan_proximity_with_retry` performs exactly three attempts with
a `RETRY_DELAY` sleep only between consecutive attempts (none after the
last), and returns `"Very Far"` with `matched = false`. -/
theorem C1_retry_exhaustion (scan : Nat → Option String)
    (h : ∀ i, i < RETRY_COUNT → scan i = none) :
    scan_proximity_with_retry scan =
      ⟨"Very Far",
       [RetryEvent.attempt 0 none, RetryEvent.sleep RETRY_DELAY, RetryEvent.attempt 1 none,
        RetryEvent.sleep RETRY_DELAY, RetryEvent.attempt 2 none], false⟩ := by
  have h0 : scan 0 = none := h 0 (by decide)
  have h1 : scan 1 = none := h 1 (by decide)
  have h2 : scan 2 = none := h 2 (by decide)
  show retry_go scan (2 + 1) 0 none = _
  rw [retry_go_succ, h0]
  norm_num [close_match]
  rw [show (2 : Nat) = 1 + 1 from rfl, retry_go_succ, h1]
  norm_num [close_match]
  rw [retry_go_succ, h2]
  norm_num [close_match, retry_go_zero]

/-- C1 witness: a scan that never finds the target. -/
theorem C1_retry_exhaustion_witness :
    scan_proximity_with_retry (fun _ => none) =
      ⟨"Very Far",
       [RetryEvent.attempt 0 none, RetryEvent.sleep RETRY_DELAY, RetryEvent.attempt 1 none,
        RetryEvent.sleep RETRY_DELAY, RetryEvent.attempt 2 none], false⟩ :=
  C1_retry_exhaustion (fun _ => none) (fun _ _ => rfl)

/-- C3: a target matched on the first attempt with a classification outside
`{Far, Very Far}` makes `scan_proximity_with_retry` return that
classification immediately, with `matched = true`, after exactly one
attempt and no sleep. -/
theorem C3_fast_accept (scan : Nat → Option String) (p : String)
    (h : scan 0 = some p) (hfar : FAR_PROXIMITIES.contains p = false) :
    scan_proximity_with_retry scan = ⟨p, [RetryEvent.attempt 0 (some p)], true⟩ := by
  have hm : p ∉ FAR_PROXIMITIES := by simpa using hfar
  show retry_go scan (2 + 1) 0 none = _
  rw [retry_go_succ, h]
  simp [close_match, hm]

/-- C3 witness: first attempt classified `Near`. -/
theorem C3_fast_accept_witness :
    scan_proximity_with_retry (fun _ => some "Near") =
      ⟨"Near", [RetryEvent.attempt 0 (some "Near")], true⟩ :=
  C3_fast_accept (fun _ => some "Near") "Near" rfl (by decide)

/-- C2: in one cycle, `isLocked() = true` means the retry orchestrator is
never invoked (and no lock); `isLocked() = false` with a resolved class in
`FAR_PROXIMITIES` means exactly one `lock()` call; `isLocked() = false`
with a close class means no `lock()` call. -/
theorem C2_lock_decision (locked : Bool) (resolved : String) :
    (locked = true →
      (run_service_cycle (Except.ok locked) (Except.ok resolved) (Except.ok ())).2 = ⟨0, 0⟩) ∧
    (locked = false → FAR_PROXIMITIES.contains resolved = true →
      (run_service_cycle (Except.ok locked) (Except.ok resolved) (Except.ok ())).2.lockCalls = 1) ∧
    (locked = false → FAR_PROXIMITIES.contains resolved = false →
      (run_service_cycle (Except.ok locked) (Except.ok resolved) (Except.ok ())).2.lockCalls = 0) := by
  refine ⟨?_, ?_, ?_⟩
  · rintro rfl
    rfl
  · rintro rfl hf
    have hm : resolved ∈ FAR_PROXIMITIES := by simpa using hf
    simp [run_service_cycle, cycle_body, hm]
  · rintro rfl hf
    have hm : resolved ∉ FAR_PROXIMITIES := by simpa using hf
    simp [run_service_cycle, cycle_body, hm]

/-- C2 witness: unlocked with resolved class `Very Far` locks exactly once. -/
theorem C2_lock_decision_witness :
    (run_service_cycle (Except.ok false) (Except.ok "Very Far") (Except.ok ())).2.lockCalls = 1 :=
  (C2_lock_decision false "Very Far").2.1 rfl (by decide)

/-- C6: an absent or zero signal strength yields a `none` distance, and a
`none` distance classifies as `"Unknown"`. -/
theorem C6_invalid_signal (rssi tx_power : Option Int)
    (h : rssi = none ∨ rssi = some 0) :
    estimate_distance rssi tx_power = none ∧ classify_proximity none = "Unknown" := by
  rcases h with h | h <;> subst h <;> exact ⟨rfl, rfl⟩

/-- C6 witness: `rssi = 0`. -/
theorem C6_invalid_signal_witness :
    estimate_distance (some 0) none = none ∧ classify_proximity none = "Unknown" :=
  C6_invalid_signal (some 0) none (Or.inr rfl)

/-- C10: for a non-zero signal strength, a calibrated power of exactly
`0` dBm is silently replaced by the `-59` dBm default: the estimate equals
the one computed with the calibrated power absent. -/
theorem C10_zero_tx_power_defaults (r : Int) (h : r ≠ 0) :
    estimate_distance (some r) (some 0) = estimate_distance (some r) none := by
  simp [estimate_distance, default_tx_power, h]

/-- C10 witness: `rssi = -50`. -/
theorem C10_zero_tx_power_defaults_witness :
    estimate_distance (some (-50)) (some 0) = estimate_distance (some (-50)) none :=
  C10_zero_tx_power_defaults (-50) (by decide)

/-- C7 counterexample: an exception not named by the `except` clause —
`NotImplementedError`, which the scan engine raises when the radio library
is unavailable (core.py line 111) — propagates out of the cycle and
terminates the loop, so it is false that any error raised inside a cycle
is caught at the loop level. -/
theorem C7_counterexample :
    (run_service_cycle (Except.ok false) (Except.error PyError.notImplementedError)
        (Except.ok ())).1 = CycleOutcome.crashed PyError.notImplementedError := rfl

/-- C7 amended: an error of one of the kinds named by the `except` clause
(`StatusCheckError`, `LockFailedError`, `FileNotFoundError`) raised inside
a cycle is caught and the loop proceeds to the next cycle after the
standard poll interval; an error-free cycle also proceeds; an error of any
other kind crashes the loop. -/
theorem C7_cycle_error_handling (locked : Except PyError Bool)
    (resolve : Except PyError String) (lockRes : Except PyError Unit) :
    (∀ u : Unit, (cycle_body locked resolve lockRes).1 = Except.ok u →
      (run_service_cycle locked resolve lockRes).1 = CycleOutcome.next CHECK_INTERVAL) ∧
    (∀ e : PyError, (cycle_body locked resolve lockRes).1 = Except.error e →
      (caught_by_handler e = true →
        (run_service_cycle locked resolve lockRes).1 = CycleOutcome.next CHECK_INTERVAL) ∧
      (caught_by_handler e = false →
        (run_service_cycle locked resolve lockRes).1 = CycleOutcome.crashed e)) := by
  rcases hb : cycle_body locked resolve lockRes with ⟨r, t⟩
  cases r with
  | ok u =>
    refine ⟨fun _ _ => ?_, fun e he => by simp_all⟩
    simp [run_service_cycle, hb]
  | error e =>
    refine ⟨fun u hu => by simp_all, fun f hf => ?_⟩
    have : f = e := by simp_all
    subst this
    constructor <;> intro hc <;> simp [run_service_cycle, hb, hc]

/-- C7 witness: a `StatusCheckError` raised by the status check is caught
and the loop proceeds after the poll interval. -/
theorem C7_cycle_error_handling_witness :
    (run_service_cycle (Except.error PyError.statusCheckError) (Except.ok "Near")
        (Except.ok ())).1 = CycleOutcome.next CHECK_INTERVAL :=
  ((C7_cycle_error_handling (Except.error PyError.statusCheckError) (Except.ok "Near")
      (Except.ok ())).2 PyError.statusCheckError rfl).1 rfl

/-- `round2` is monotone. -/
theorem round2_mono {x y : ℝ} (h : x ≤ y) : round2 x ≤ round2 y := by
  unfold round2
  have hr : round (x * 100) ≤ round (y * 100) := by
    rw [round_eq, round_eq]
    exact Int.floor_le_floor (by linarith)
  have hc : ((round (x * 100) : ℤ) : ℝ) ≤ ((round (y * 100) : ℤ) : ℝ) := by exact_mod_cast hr
  linarith

/-- Unfolding of `estimate_distance` on a valid signal strength. -/
theorem estimate_distance_valid (r : Int) (tx_power : Option Int) (h : r ≠ 0) :
    estimate_distance (some r) tx_power =
      some (round2 ((10 : ℝ) ^
        ((((default_tx_power tx_power : Int) : ℝ) - (r : ℝ)) / (10 * 2)))) := by
  simp [estimate_distance, h]

/-- C8: the classification boundaries are exclusive upper bounds, and the
boundary values `0.5`, `2` and `10` fall in the higher class. -/
theorem C8_classify_boundaries (d : ℝ) :
    (classify_proximity (some d) = "Immediate" ↔ d < 0.5) ∧
    (classify_proximity (some d) = "Near" ↔ 0.5 ≤ d ∧ d < 2) ∧
    (classify_proximity (some d) = "Far" ↔ 2 ≤ d ∧ d < 10) ∧
    (classify_proximity (some d) = "Very Far" ↔ 10 ≤ d) ∧
    classify_proximity (some (0.5 : ℝ)) = "Near" ∧
    classify_proximity (some (2 : ℝ)) = "Far" ∧
    classify_proximity (some (10 : ℝ)) = "Very Far" := by
  have e : ∀ x : ℝ, classify_proximity (some x) =
      if x < 0.5 then "Immediate" else if x < 2 then "Near"
      else if x < 10 then "Far" else "Very Far" := fun _ => rfl
  refine ⟨?_, ?_, ?_, ?_, ?_, ?_, ?_⟩
  · rw [e]
    split_ifs with h1 h2 h3 <;> simp_all <;> first
      | linarith
      | (constructor <;> linarith)
      | (intro hh; linarith)
      | (rintro ⟨hh1, hh2⟩; linarith)
      | (intro hh; constructor <;> linarith)
  · rw [e]
    split_ifs with h1 h2 h3 <;> simp_all <;> first
      | linarith
      | (constructor <;> linarith)
      | (intro hh; linarith)
      | (rintro ⟨hh1, hh2⟩; linarith)
      | (intro hh; constructor <;> linarith)
  · rw [e]
    split_ifs with h1 h2 h3 <;> simp_all <;> first
      | linarith
      | (constructor <;> linarith)
      | (intro hh; linarith)
      | (rintro ⟨hh1, hh2⟩; linarith)
      | (intro hh; constructor <;> linarith)
  · rw [e]
    split_ifs with h1 h2 h3 <;> simp_all <;> first
      | linarith
      | (constructor <;> linarith)
      | (intro hh; linarith)
      | (rintro ⟨hh1, hh2⟩; linarith)
      | (intro hh; constructor <;> linarith)
  · rw [e, if_neg (by norm_num), if_pos (by norm_num)]
  · rw [e, if_neg (by norm_num), if_neg (by norm_num), if_pos (by norm_num)]
  · rw [e, if_neg (by norm_num), if_neg (by norm_num), if_neg (by norm_num)]

/-- C9: for a fixed calibrated power and two valid signal strengths below
it, the weaker signal yields a distance estimate at least as large. -/
theorem C9_distance_monotone (t s1 s2 : Int) (h1 : s1 ≠ 0) (h2 : s2 ≠ 0)
    (hlt : s2 < s1) (hb1 : s1 < t) (hb2 : s2 < t) :
    ∃ d1 d2 : ℝ, estimate_distance (some s1) (some t) = some d1 ∧
      estimate_distance (some s2) (some t) = some d2 ∧ d1 ≤ d2 := by
  refine ⟨_, _, estimate_distance_valid s1 (some t) h1,
    estimate_distance_valid s2 (some t) h2, ?_⟩
  apply round2_mono
  apply Real.rpow_le_rpow_of_exponent_le (by norm_num)
  have hc : (s2 : ℝ) < (s1 : ℝ) := by exact_mod_cast hlt
  linarith

/-- C9 witness: calibrated power `-59`, signals `-60` and `-70`. -/
theorem C9_distance_monotone_witness :
    ∃ d1 d2 : ℝ, estimate_distance (some (-60)) (some (-59)) = some d1 ∧
      estimate_distance (some (-70)) (some (-59)) = some d2 ∧ d1 ≤ d2 :=
  C9_distance_monotone (-59) (-60) (-70) (by decide) (by decide) (by decide)
    (by decide) (by decide)

/-- `Char.ofNat` round-trips on valid code points. -/
theorem char_toNat_ofNat_of_valid (n : Nat) (h : n < 55296) : (Char.ofNat n).toNat = n := by
  have hv : n.isValidChar := Or.inl h
  simp [Char.ofNat, hv, Char.ofNatAux, Char.toNat, UInt32.toNat]

/-- Lowercasing after uppercasing is plain lowercasing (ASCII letters). -/
theorem toLower_toUpper (c : Char) : c.toUpper.toLower = c.toLower := by
  unfold Char.toUpper Char.toLower
  by_cases hl : 97 ≤ c.toNat ∧ c.toNat ≤ 122
  · rw [if_pos hl]
    have hsub : c.toNat - 32 < 55296 := by omega
    have ht : (Char.ofNat (c.toNat - 32)).toNat = c.toNat - 32 :=
      char_toNat_ofNat_of_valid _ hsub
    rw [if_pos (by rw [ht]; omega)]
    rw [ht]
    have hadd : c.toNat - 32 + 32 = c.toNat := by omega
    rw [hadd, Char.ofNat_toNat, if_neg (by omega)]
  · rw [if_neg hl]

/-- String-level version of `toLower_toUpper`. -/
theorem pyLower_pyUpper (s : PyStr) : pyLower (pyUpper s) = pyLower s := by
  simp [pyLower, pyUpper, List.map_map, Function.comp, toLower_toUpper]

/-- C4 counterexample: target identifier `"AA"` against an observation with
radio address `"AA:BB"` and display name `"ZZZ"`.  The code's predicate
holds (`"AA"` is a substring of the uppercased address), yet the
identifier neither equals the address case-insensitively nor is a
substring of the display name, so the claimed characterisation is false. -/
theorem C4_counterexample :
    is_target_device (init_target_devices ["AA".toList]) "AA:BB".toList "ZZZ".toList = true ∧
    ¬ (pyUpper "AA".toList = pyUpper "AA:BB".toList ∨
       pyLower "AA".toList <:+: pyLower "ZZZ".toList) := by decide

/-- C4 amended: the match predicate holds iff some target identifier is a
case-insensitive *substring* of the radio address, or a case-insensitive
substring of the display name; and it is deterministic (a pure
function of the target list and the observation). -/
theorem C4_match_is_substring (targets : List PyStr) (mac_address name : PyStr) :
    (is_target_device (init_target_devices targets) mac_address name = true ↔
      ∃ t ∈ targets, pyUpper t <:+: pyUpper mac_address ∨ pyLower t <:+: pyLower name) ∧
    is_target_device (init_target_devices targets) mac_address name =
      is_target_device (init_target_devices targets) mac_address name := by
  refine ⟨?_, rfl⟩
  simp [is_target_device, init_target_devices, List.any_map, List.any_eq_true,
    Function.comp, pyLower_pyUpper]

/-- Unfolding of `scan_events_loop` on an empty stream. -/
theorem scan_events_loop_nil (tds : List PyStr) (target_only : Bool) (st : ScanState) :
    scan_events_loop tds target_only [] st = st := rfl

/-- Unfolding of `scan_events_loop` on one delivered event. -/
theorem scan_events_loop_cons (tds : List PyStr) (target_only : Bool) (o : Observation)
    (rest : List Observation) (st : ScanState) :
    scan_events_loop tds target_only (o :: rest) st =
      if (detection_callback tds target_only st o).stopped then detection_callback tds target_only st o
      else scan_events_loop tds target_only rest (detection_callback tds target_only st o) := rfl

/-- A non-matching observation only extends `devices_found`. -/
theorem detection_callback_nonmatch (tds : List PyStr) (st : ScanState) (o : Observation)
    (hne : tds ≠ []) (hm : is_target_device tds o.mac o.name = false) :
    detection_callback tds true st o = { st with devices_found := st.devices_found ++ [o] } := by
  cases tds with
  | nil => exact absurd rfl hne
  | cons t ts => simp [detection_callback, hm]

/-- When the stop event fires on an observation, the matched-MAC count has
just reached the target count. -/
theorem detection_callback_count (tds : List PyStr) (st : ScanState) (o : Observation)
    (hne : tds ≠ []) (hs : st.stopped = false)
    (h1 : (detection_callback tds true st o).stopped = true) :
    (detection_callback tds true st o).found_target_macs.length = tds.length := by
  cases tds with
  | nil => exact absurd rfl hne
  | cons t ts =>
    by_cases hm : is_target_device (t :: ts) o.mac o.name = true
    · by_cases hl : (setInsert st.found_target_macs o.mac).length = ts.length + 1
      · simp [detection_callback, hm, hl]
      · simp [detection_callback, hm, hl, hs] at h1
    · have hm2 : is_target_device (t :: ts) o.mac o.name = false := by simpa using hm
      simp [detection_callback, hm2, hs] at h1

/-- Delivering a stream of non-matching observations only accumulates them
into `devices_found`; the scan does not stop on them. -/
theorem scan_events_loop_nonmatch (tds : List PyStr) (hne : tds ≠ []) :
    ∀ (pre rest : List Observation) (st : ScanState), st.stopped = false →
      (∀ p ∈ pre, is_target_device tds p.mac p.name = false) →
      scan_events_loop tds true (pre ++ rest) st =
        scan_events_loop tds true rest { st with devices_found := st.devices_found ++ pre } := by
  intro pre
  induction pre with
  | nil =>
    intro rest st hs hp
    simp
  | cons p pre ih =>
    intro rest st hs hp
    have hm : is_target_device tds p.mac p.name = false := hp p (by simp)
    rw [List.cons_append, scan_events_loop_cons,
      detection_callback_nonmatch tds st p hne hm]
    rw [if_neg (by simpa using hs)]
    rw [ih rest _ (by simpa using hs) (fun q hq => hp q (by simp [hq]))]
    simp

/-- If a scan stopped early, the distinct matched-MAC count equals the
target-list length at the final state. -/
theorem scan_events_loop_stop_count (tds : List PyStr) (hne : tds ≠ []) :
    ∀ (events : List Observation) (st : ScanState), st.stopped = false →
      (scan_events_loop tds true events st).stopped = true →
      (scan_events_loop tds true events st).found_target_macs.length = tds.length := by
  intro events
  induction events with
  | nil =>
    intro st hs hstop
    rw [scan_events_loop_nil] at hstop
    rw [hstop] at hs
    exact absurd hs (by simp)
  | cons o rest ih =>
    intro st hs hstop
    rw [scan_events_loop_cons] at hstop ⊢
    by_cases h1 : (detection_callback tds true st o).stopped = true
    · rw [if_pos h1] at hstop ⊢
      exact detection_callback_count tds st o hne hs h1
    · rw [if_neg h1] at hstop ⊢
      exact ih _ (by simpa using h1) hstop

/-- A single-target scan stops on its first matching observation, records
exactly that MAC, and accepts no later observation. -/
theorem single_target_first_match (t : PyStr) (pre post : List Observation) (o : Observation)
    (hpre : ∀ p ∈ pre, is_target_device [t] p.mac p.name = false)
    (ho : is_target_device [t] o.mac o.name = true) :
    run_scan [t] true (pre ++ o :: post) = ⟨pre ++ [o], [o.mac], true⟩ := by
  unfold run_scan
  rw [scan_events_loop_nonmatch [t] (by simp) pre (o :: post) initial_scan_state rfl hpre]
  rw [scan_events_loop_cons]
  have hcb : detection_callback [t] true
      { initial_scan_state with devices_found := initial_scan_state.devices_found ++ pre } o =
      ⟨pre ++ [o], [o.mac], true⟩ := by
    simp [detection_callback, initial_scan_state, ho, setInsert]
  rw [hcb]
  simp

/-- C5 counterexample: a two-target scan (`"AA"`, `"BB"`) that stops early
although the second target was never matched.  Two observations with
distinct MACs both match the first target only; the matched-MAC set then
has size two, equal to the number of targets, so the stop event fires and
the third observation — the only one matching `"BB"` — is never accepted.
This refutes "a multi-target scan does not stop early until every target
has been matched or the deadline elapses". -/
theorem C5_counterexample :
    (run_scan ["AA".toList, "BB".toList] true
        [⟨"AA:1".toList, "q".toList, -50⟩, ⟨"AA:2".toList, "q".toList, -50⟩,
         ⟨"BB:1".toList, "q".toList, -50⟩]).stopped = true ∧
    (run_scan ["AA".toList, "BB".toList] true
        [⟨"AA:1".toList, "q".toList, -50⟩, ⟨"AA:2".toList, "q".toList, -50⟩,
         ⟨"BB:1".toList, "q".toList, -50⟩]).devices_found =
      [⟨"AA:1".toList, "q".toList, -50⟩, ⟨"AA:2".toList, "q".toList, -50⟩] ∧
    (∀ o ∈ (run_scan ["AA".toList, "BB".toList] true
        [⟨"AA:1".toList, "q".toList, -50⟩, ⟨"AA:2".toList, "q".toList, -50⟩,
         ⟨"BB:1".toList, "q".toList, -50⟩]).devices_found,
      is_target_device ["BB".toList] o.mac o.name = false) ∧
    is_target_device ["BB".toList] "BB:1".toList "q".toList = true := by decide

/-- C5 amended: with early stop enabled and a non-empty target list, the
stop event fires as soon as the number of *distinct matched MAC addresses*
reaches the number of targets (which, with several targets, can happen
before every target is matched).  In particular a single-target scan stops
on its first matching observation and accepts no further observations, and
any early-stopped scan has matched-MAC count equal to the target count. -/
theorem C5_early_stop :
    (∀ (t : PyStr) (pre post : List Observation) (o : Observation),
      (∀ p ∈ pre, is_target_device [t] p.mac p.name = false) →
      is_target_device [t] o.mac o.name = true →
      run_scan [t] true (pre ++ o :: post) = ⟨pre ++ [o], [o.mac], true⟩) ∧
    (∀ (tds : List PyStr) (events : List Observation), tds ≠ [] →
      (run_scan tds true events).stopped = true →
      (run_scan tds true events).found_target_macs.length = tds.length) ∧
    (∀ (tds : List PyStr) (st : ScanState) (o : Observation), tds ≠ [] →
      is_target_device tds o.mac o.name = true →
      (setInsert st.found_target_macs o.mac).length = tds.length →
      (detection_callback tds true st o).stopped = true) := by
  refine ⟨single_target_first_match, ?_, ?_⟩
  · intro tds events hne hstop
    exact scan_events_loop_stop_count tds hne events initial_scan_state rfl hstop
  · intro tds st o hne hm hl
    cases tds with
    | nil => exact absurd rfl hne
    | cons t ts => simp [detection_callback, hm, by simpa using hl]

/-- C5 witness: a single-target scan whose only event matches stops with
exactly that observation recorded. -/
theorem C5_early_stop_witness :
    run_scan ["AA".toList] true [⟨"AA:9".toList, "x".toList, -40⟩] =
      ⟨[⟨"AA:9".toList, "x".toList, -40⟩], ["AA:9".toList], true⟩ :=
  C5_early_stop.1 "AA".toList [] [] ⟨"AA:9".toList, "x".toList, -40⟩
    (by simp) (by decide)
